import Mathlib

/-!
A shallow embedding of the rke2-installer deployment orchestrator:
`src/main.py` (the `deploy` command and `show_deployment_plan`),
`src/deploy/node.py` (`setup_node`), `src/deploy/systemd.py`
(`configure_systemd`, `agent_connection`, `get_server_token`),
`src/deploy/config.py` (`write_server_config_yaml`),
`src/deploy/validation/airgap_validator.py` (`AirgapValidator`),
`src/deploy/airgap/bundle_manager.py` (`BundleManager`) and
`src/uninstall/uninstall_cluster.py` (`uninstall_cluster`).

Remote-command outcomes, local file existence and raised exceptions are
abstracted as boolean/option-valued oracles passed to the embedded
functions; the control flow of the Python source is reproduced faithfully,
and each function's observable behaviour is recorded as a list of events.
-/

namespace RKE2

/-- One node entry from `cfg['nodes']['servers']` / `cfg['nodes']['agents']`. -/
structure Node where
  hostname : String
  ip : String
  gpuEnabled : Bool := false
  deriving DecidableEq, Repr

/-- The node inventory of a cluster spec (`cfg['nodes']`). -/
structure Inventory where
  servers : List Node
  agents : List Node
  deriving DecidableEq, Repr

/-- Observable events of the `deploy` command (src/main.py, lines 169-257). -/
inductive DEvent where
  /-- `show_deployment_plan` ran; carries the node counts it prints
  (src/main.py lines 346 and 355). -/
  | planShown (nServers nAgents : Nat)
  /-- `setup_node` was invoked for this node (a provisioning attempt,
  which opens an SSH connection to the node). -/
  | provision (hostname : String) (isServer : Bool) (isFirst : Bool)
  /-- `log_error` output. -/
  | errorLog (msg : String)
  /-- `install_gpu_stack` was invoked for a gpu_enabled agent. -/
  | gpuInstall (hostname : String)
  /-- `log_warning` output. -/
  | warnLog (msg : String)
  /-- `post_install_health_check` was invoked for a server node. -/
  | healthCheck (hostname : String)
  deriving DecidableEq, Repr

/-- The servers loop of `deploy` (src/main.py lines 209-226): enumerate with
index `i`, `is_first_server = (i == 0)`; on the first node whose
`setup_node` result is falsy, log an error and return (aborting the whole
run).  `ok n` abstracts the truthiness of `setup_node`'s return value for
node `n`.  Returns the emitted events and whether the loop completed. -/
def serverPhase (ok : Node → Bool) : List Node → Nat → List DEvent × Bool
  | [], _ => ([], true)
  | n :: rest, i =>
    let ev := DEvent.provision n.hostname true (i == 0)
    if ok n then
      let r := serverPhase ok rest (i + 1)
      (ev :: r.1, r.2)
    else
      ([ev, DEvent.errorLog ("Failed to setup server " ++ n.hostname)], false)

/-- The agents loop of `deploy` (src/main.py lines 230-251): on the first
agent whose `setup_node` result is falsy, log an error and return (aborting
the run); for a gpu_enabled agent that succeeded, run `install_gpu_stack`
and log a warning if it fails.  Returns the emitted events and whether the
loop completed. -/
def agentPhase (ok gpuOk : Node → Bool) : List Node → List DEvent × Bool
  | [] => ([], true)
  | n :: rest =>
    let ev := DEvent.provision n.hostname false false
    if ok n then
      let gpuEvs :=
        if n.gpuEnabled then
          DEvent.gpuInstall n.hostname ::
            (if gpuOk n then []
             else [DEvent.warnLog ("GPU stack installation failed on " ++ n.hostname)])
        else []
      let r := agentPhase ok gpuOk rest
      (ev :: (gpuEvs ++ r.1), r.2)
    else
      ([ev, DEvent.errorLog ("Failed to setup agent " ++ n.hostname)], false)

/-- The health sweep of `deploy` (src/main.py lines 255-257): every server
gets a health check; a failure is only a warning. -/
def healthPhase (healthOk : Node → Bool) (servers : List Node) : List DEvent :=
  servers.foldr
    (fun n acc =>
      DEvent.healthCheck n.hostname ::
        ((if healthOk n then []
          else [DEvent.warnLog ("Health check failed on " ++ n.hostname)]) ++ acc))
    []

/-- The `deploy` command after configuration loading and handler resolution
(src/main.py lines 169-257).  With `--dry-run` it only shows the plan and
returns (line 169-172, before validation and before any SSH connection);
otherwise it runs the servers loop (whole-run fail-fast), then the agents
loop (also fail-fast), then the health sweep. -/
def deployRun (inv : Inventory) (dryRun : Bool) (ok gpuOk healthOk : Node → Bool) :
    List DEvent :=
  if dryRun then
    [DEvent.planShown inv.servers.length inv.agents.length]
  else
    let s := serverPhase ok inv.servers 0
    if s.2 then
      let a := agentPhase ok gpuOk inv.agents
      if a.2 then s.1 ++ a.1 ++ healthPhase healthOk inv.servers
      else s.1 ++ a.1
    else s.1

/-- Hostname and first-server flag of every server provisioning attempt. -/
def serverAttempts (t : List DEvent) : List (String × Bool) :=
  t.filterMap (fun e =>
    match e with
    | DEvent.provision h true f => some (h, f)
    | _ => none)

/-- Hostname of every agent provisioning attempt. -/
def agentAttempts (t : List DEvent) : List String :=
  t.filterMap (fun e =>
    match e with
    | DEvent.provision h false _ => some h
    | _ => none)

/-- Hostnames provisioned with `is_first_server` true. -/
def firstFlagged (t : List DEvent) : List String :=
  t.filterMap (fun e =>
    match e with
    | DEvent.provision h _ true => some h
    | _ => none)

/-- The error-log messages of a trace. -/
def errorLogs (t : List DEvent) : List String :=
  t.filterMap (fun e =>
    match e with
    | DEvent.errorLog m => some m
    | _ => none)

/-- Events that touch a remote host (SSH connection, remote command or
file transfer happen inside these calls). -/
def isRemote : DEvent → Bool
  | DEvent.provision _ _ _ => true
  | DEvent.gpuInstall _ => true
  | DEvent.healthCheck _ => true
  | _ => false

/-- The remote-touching events of a trace. -/
def remoteEvents (t : List DEvent) : List DEvent := t.filter isRemote

/-! ### setup_node (src/deploy/node.py lines 10-168) -/

/-- The Python values `setup_node` can produce: it has two explicit
`return False` statements (lines 21 and 57), no `return True` anywhere, and
every other path (including full success and the `except` handler at line
167, which only logs) falls off the end of the function, i.e. returns
`None`.  `pyTrue` is included so that "never returns a truthy value" is a
statement about the function, not about the type. -/
inductive PyRet where
  | pyTrue
  | pyFalse
  | pyNone
  deriving DecidableEq, Repr

/-- Python truthiness of a `setup_node` result. -/
def truthy : PyRet → Bool
  | PyRet.pyTrue => true
  | PyRet.pyFalse => false
  | PyRet.pyNone => false

/-- Oracle for one `setup_node` run, in the order the source consults the
outside world: `bundleExists` is `os.path.exists(cfg['cluster']['airgap_bundle_path'])`
(line 19); `connectRaises` covers an exception from `ssh.connect`,
`open_sftp` or `sftp.put` (lines 24-48); `uploadVerified` is whether
`sftp.stat(remote_bundle_path)` succeeds (lines 51-57); `laterRaises`
covers an exception anywhere in the remaining provisioning steps (lines
59-165), all of which are caught at line 167. -/
structure SetupEnv where
  bundleExists : Bool
  connectRaises : Bool
  uploadVerified : Bool
  laterRaises : Bool
  deriving DecidableEq, Repr

/-- `setup_node` (src/deploy/node.py lines 10-168), reduced to its return
value.  The intermediate steps (extraction, registry config, RPM install,
config write, systemd configuration, kubectl/extra tools) log failures of
individual remote commands but never change the return value. -/
def setup_node (e : SetupEnv) : PyRet :=
  if !e.bundleExists then PyRet.pyFalse
  else if e.connectRaises then PyRet.pyNone
  else if !e.uploadVerified then PyRet.pyFalse
  else if e.laterRaises then PyRet.pyNone
  else PyRet.pyNone

/-! ### configure_systemd / agent_connection / get_server_token
(src/deploy/systemd.py) -/

/-- Observable events of the systemd/token handling. -/
inductive SysEvent where
  /-- a remote command was executed on the node (the command-loop body,
  src/deploy/systemd.py lines 37-47). -/
  | runCmd (hostname cmd : String)
  /-- `log_warning` output on this node. -/
  | warnLog (hostname msg : String)
  /-- the module-level `serverToken` was passed to `agent_connection`
  (src/deploy/systemd.py line 21): a read of the shared token state. -/
  | tokenRead (hostname : String) (value : Option String)
  /-- `agent_connection` wrote `/etc/rancher/rke2/config.yaml` containing
  `server: https://{serverIp}:9345` and `token: {token}`
  (src/deploy/systemd.py lines 61-68). -/
  | writeJoinConfig (hostname serverIp token : String)
  /-- the module-level `serverToken` was assigned
  (src/deploy/systemd.py line 53): a write of the shared token state. -/
  | tokenWrite (hostname : String) (value : Option String)
  deriving DecidableEq, Repr

/-- Python truthiness test `if not server_token` for the token, which is
`None` initially (src/deploy/utils.py line 20) or a possibly-empty string. -/
def tokenFalsy : Option String → Bool
  | none => true
  | some t => t == ""

/-- `agent_connection` (src/deploy/systemd.py lines 55-91): with a falsy
token it logs a warning and returns without writing anything; otherwise it
runs three remote commands that install the agent join config containing
the first server's URL and the token. -/
def agent_connection (serverToken : Option String) (serverIp : String) (node : Node) :
    List SysEvent :=
  match serverToken with
  | none =>
    [SysEvent.warnLog node.hostname "Warning: Server token is empty or not retrieved yet!"]
  | some t =>
    if t == "" then
      [SysEvent.warnLog node.hostname "Warning: Server token is empty or not retrieved yet!"]
    else
      [SysEvent.runCmd node.hostname "mkdir -p /etc/rancher/rke2",
       SysEvent.writeJoinConfig node.hostname serverIp t,
       SysEvent.runCmd node.hostname "cp /tmp/config.yaml /etc/rancher/rke2/config.yaml"]

/-- `get_server_token` (src/deploy/systemd.py lines 93-116), as a function
of the remote read of `/var/lib/rancher/rke2/server/node-token`: `none`
models an exception (caught, returns `None`); an empty string returns
`None` (line 107-109); otherwise the stripped token is returned. -/
def get_server_token (remoteToken : Option String) : Option String :=
  match remoteToken with
  | none => none
  | some s => if s == "" then none else some s

/-- `configure_systemd` (src/deploy/systemd.py lines 6-53).  Takes the
current shared token, runs: for an agent, `agent_connection` first (line
19-21, before the command loop); then the service cp/daemon-reload/enable
(+ firewall rules for a server with firewalld) and start/status commands;
for a server it finally re-assigns the shared token from
`get_server_token` (lines 50-53, executed for every server, not only the
first).  Returns the events and the new shared-token value. -/
def configure_systemd (serverToken : Option String) (isServer : Bool)
    (serverIp : String) (node : Node) (firewalld : Bool)
    (remoteToken : Option String) : List SysEvent × Option String :=
  let serviceType := if isServer then "server" else "agent"
  let baseCmds :=
    ["cp rke2-" ++ serviceType ++ ".service /etc/systemd/system/",
     "systemctl daemon-reexec", "systemctl daemon-reload",
     "systemctl enable rke2-" ++ serviceType ++ ".service"]
  let agentEvents :=
    if isServer then []
    else SysEvent.tokenRead node.hostname serverToken
           :: agent_connection serverToken serverIp node
  let fwCmds :=
    if isServer && firewalld then
      ["firewall-cmd --permanent --add-port=9345/tcp",
       "firewall-cmd --permanent --add-port=6443/tcp",
       "firewall-cmd --permanent --add-port=8472/udp",
       "firewall-cmd --permanent --add-port=10250/tcp",
       "firewall-cmd --reload"]
    else []
  let cmds := baseCmds ++ fwCmds ++
    ["systemctl start rke2-" ++ serviceType ++ ".service",
     "systemctl status rke2-" ++ serviceType ++ ".service --no-pager"]
  let cmdEvents := cmds.map (SysEvent.runCmd node.hostname)
  if isServer then
    let newToken := get_server_token remoteToken
    (agentEvents ++ cmdEvents ++ [SysEvent.tokenWrite node.hostname newToken], newToken)
  else
    (agentEvents ++ cmdEvents, serverToken)

/-- The servers part of the shared-token flow of a deploy run: each server's
`setup_node` calls `configure_systemd` (src/deploy/node.py line 138), which
threads the module-level `serverToken`.  `remoteTokenOf n` is the content
of the token file read on node `n`. -/
def tokenFlowServers (serverIp : String) (firewalld : Bool)
    (remoteTokenOf : Node → Option String) :
    List Node → Option String → List SysEvent × Option String
  | [], tok => ([], tok)
  | n :: rest, tok =>
    let r := configure_systemd tok true serverIp n firewalld (remoteTokenOf n)
    let r2 := tokenFlowServers serverIp firewalld remoteTokenOf rest r.2
    (r.1 ++ r2.1, r2.2)

/-- The agents part of the shared-token flow: every agent's
`configure_systemd` reads the token left by the servers loop (agents never
modify it). -/
def tokenFlowAgents (serverIp : String) (firewalld : Bool)
    (remoteTokenOf : Node → Option String) (tok : Option String) :
    List Node → List SysEvent
  | [] => []
  | n :: rest =>
    (configure_systemd tok false serverIp n firewalld (remoteTokenOf n)).1
      ++ tokenFlowAgents serverIp firewalld remoteTokenOf tok rest

/-- The shared-token flow of a full deploy run: `serverToken` starts as
`None` (src/deploy/utils.py line 20); the servers are processed in list
order, then the agents; the join target is always `servers[0].ip`
(src/deploy/node.py line 129). -/
def tokenFlowRun (inv : Inventory) (firewalld : Bool)
    (remoteTokenOf : Node → Option String) : List SysEvent :=
  let serverIp := match inv.servers with | [] => "" | s :: _ => s.ip
  let s := tokenFlowServers serverIp firewalld remoteTokenOf inv.servers none
  s.1 ++ tokenFlowAgents serverIp firewalld remoteTokenOf s.2 inv.agents

/-- The final value of the shared token after the servers loop. -/
def finalServerToken (inv : Inventory) (firewalld : Bool)
    (remoteTokenOf : Node → Option String) : Option String :=
  let serverIp := match inv.servers with | [] => "" | s :: _ => s.ip
  (tokenFlowServers serverIp firewalld remoteTokenOf inv.servers none).2

/-- The token-write events of a systemd trace, in order. -/
def tokenWrites (t : List SysEvent) : List (String × Option String) :=
  t.filterMap (fun e =>
    match e with
    | SysEvent.tokenWrite h v => some (h, v)
    | _ => none)

/-- The token-read events of a systemd trace, in order. -/
def tokenReads (t : List SysEvent) : List (String × Option String) :=
  t.filterMap (fun e =>
    match e with
    | SysEvent.tokenRead h v => some (h, v)
    | _ => none)

/-- The join-config writes of a systemd trace, in order. -/
def joinConfigWrites (t : List SysEvent) : List (String × String × String) :=
  t.filterMap (fun e =>
    match e with
    | SysEvent.writeJoinConfig h ip tok => some (h, ip, tok)
    | _ => none)

/-! ### write_server_config_yaml (src/deploy/config.py lines 6-51) -/

/-- The `cfg['cluster']` fields `write_server_config_yaml` consults: the
static `token`, the optional `domain`, and the optional whitelisted keys
(`fields k` is the value of key `k` when present). -/
structure ClusterCfg where
  token : String
  domain : Option String
  fields : String → Option String

/-- The `optional_fields` whitelist (src/deploy/config.py lines 21-25). -/
def optionalFields : List String :=
  ["cluster-cidr", "service-cidr", "cni", "disable-network-policy",
   "write-kubeconfig-mode", "kube-apiserver-arg", "container-runtime-endpoint",
   "pause-image", "disable", "airgap", "selinux"]

/-- `write_server_config_yaml` (src/deploy/config.py lines 6-51), as the
key/value pairs of the rendered config dict in insertion order: `token`
(the static `cfg['cluster']['token']`), `node-name`, `cluster-init` only
for the first server, `tls-san`, then whichever whitelisted optional keys
the cluster config contains.  No key carrying a join URL is ever written. -/
def write_server_config_yaml (node : Node) (isFirstServer : Bool) (c : ClusterCfg) :
    List (String × String) :=
  let base := [("token", c.token), ("node-name", node.hostname)]
  let base := base ++ (if isFirstServer then [("cluster-init", "true")] else [])
  let tlsSan :=
    node.ip ++ "," ++ node.hostname ++
      (match c.domain with
       | some d => "," ++ node.hostname ++ "." ++ d
       | none => "")
  (base ++ [("tls-san", tlsSan)]) ++
    optionalFields.filterMap (fun k => (c.fields k).map (fun v => (k, v)))

/-- The keys of a rendered config. -/
def configKeys (cfg : List (String × String)) : List String := cfg.map Prod.fst

/-! ### AirgapValidator (src/deploy/validation/airgap_validator.py) -/

/-- A node as the validator sees it.  `hostname` is always present (it is
interpolated into the very first log line of `validate_ssh_access`, line
97); the remaining identity fields may be missing from the YAML dict. -/
structure VNode where
  hostname : String
  ip : Option String
  user : Option String
  sshKey : Option String
  deriving DecidableEq, Repr

/-- The configuration slice the validator consults. -/
structure VConfig where
  dist : String
  rke2Path : String → Option String
  k3sPath : String → Option String
  packageBundles : List (String × Option String)
  airgapEnabled : Bool
  localRegistry : Option String
  bundleStagingExists : Bool
  servers : List VNode
  agents : List VNode

/-- The RKE2 `required_bundles` keys (airgap_validator.py lines 20-24). -/
def requiredRke2Bundles : List String :=
  ["airgap_bundle_path", "images_bundle_path", "install_script_path"]

/-- The K3s `required_bundles` keys (airgap_validator.py lines 34-37). -/
def requiredK3sBundles : List String :=
  ["binary_path", "images_bundle_path"]

/-- The paths collected into `missing_bundles` from one distribution's
config: keys present in the config whose path does not exist locally.
`ex p` is `os.path.exists(p)`. -/
def missingOf (cfgPath : String → Option String) (keys : List String)
    (ex : String → Bool) : List String :=
  keys.filterMap (fun k =>
    match cfgPath k with
    | some p => if ex p then none else some p
    | none => none)

/-- The full `missing_bundles` list of `validate_local_bundles`
(airgap_validator.py lines 15-51): distribution bundles, then per-OS
package bundles. -/
def missingBundles (c : VConfig) (ex : String → Bool) : List String :=
  (if c.dist == "rke2" then missingOf c.rke2Path requiredRke2Bundles ex
   else if c.dist == "k3s" then missingOf c.k3sPath requiredK3sBundles ex
   else []) ++
  c.packageBundles.filterMap (fun kv =>
    match kv.2 with
    | some p => if ex p then none else some p
    | none => none)

/-- `validate_local_bundles` (airgap_validator.py lines 11-60): returns
false when any bundle is missing, logging every missing path (lines
53-57), not only the first. -/
def validate_local_bundles (c : VConfig) (ex : String → Bool) : Bool × List String :=
  let missing := missingBundles c ex
  if missing.isEmpty then (true, ["All required bundles found"])
  else (false, "Missing required bundles:" :: missing.map (fun p => "  - " ++ p))

/-- `validate_disk_space` (airgap_validator.py lines 62-76): always returns
true; a missing staging area is only a warning. -/
def validate_disk_space (c : VConfig) : Bool × List String :=
  if c.bundleStagingExists then (true, ["Bundle staging area accessible"])
  else (true, ["Bundle staging area does not exist"])

/-- `validate_registry_access` (airgap_validator.py lines 78-93): true when
airgap is disabled; otherwise false iff `local_registry` is falsy. -/
def validate_registry_access (c : VConfig) : Bool × List String :=
  if !c.airgapEnabled then (true, ["Airgap mode not enabled, skipping registry validation"])
  else
    match c.localRegistry with
    | none => (false, ["Local registry not configured for airgapped deployment"])
    | some r =>
      if r == "" then (false, ["Local registry not configured for airgapped deployment"])
      else (true, ["Local registry configured: " ++ r])

/-- `validate_ssh_access` (airgap_validator.py lines 95-115): the identity
fields are checked in order (hostname is always present, see `VNode`), the
SSH key file must exist, and a root user is only a warning. -/
def validate_ssh_access (ex : String → Bool) (n : VNode) : Bool × List String :=
  match n.ip with
  | none => (false, ["Missing required field in node config: ip"])
  | some _ =>
    match n.user with
    | none => (false, ["Missing required field in node config: user"])
    | some u =>
      match n.sshKey with
      | none => (false, ["Missing required field in node config: ssh_key"])
      | some k =>
        if !ex k then (false, ["SSH key not found: " ++ k])
        else
          let warn := if u == "root" then
              ["Using root user - consider using non-root user with sudo"] else []
          (true, warn ++ ["SSH configuration valid for " ++ n.hostname])

/-- The `validation_results` list of `run_full_validation`
(airgap_validator.py lines 121-134): bundles, disk space, registry, then
one SSH check per node — every check runs regardless of earlier results. -/
def checkResults (c : VConfig) (ex : String → Bool) : List Bool :=
  [(validate_local_bundles c ex).1, (validate_disk_space c).1,
   (validate_registry_access c).1] ++
    (c.servers ++ c.agents).map (fun n => (validate_ssh_access ex n).1)

/-- The concatenated log output of `run_full_validation`. -/
def validationLogs (c : VConfig) (ex : String → Bool) : List String :=
  (validate_local_bundles c ex).2 ++ (validate_disk_space c).2 ++
    (validate_registry_access c).2 ++
    (c.servers ++ c.agents).flatMap (fun n => (validate_ssh_access ex n).2)

/-- `run_full_validation` (airgap_validator.py lines 117-141): the
conjunction `all(validation_results)`. -/
def run_full_validation (c : VConfig) (ex : String → Bool) : Bool :=
  (checkResults c ex).all (fun b => b)

/-! ### BundleManager (src/deploy/airgap/bundle_manager.py)

The remote staging area is modelled as a map from remote path to the
identity of the local file last uploaded there (permission bits are not
modelled; `chmod +x` does not change which artifacts are present). -/

/-- Remote staging state: remote path to uploaded content (identified by
its local source path), or `none` when absent. -/
def RState : Type := String → Option String

/-- Overwrite one remote path (the effect of `sftp.put`). -/
def putRemote (st : RState) (remotePath localPath : String) : RState :=
  fun q => if q = remotePath then some localPath else st q

/-- `BundleManager._upload_file` (bundle_manager.py lines 83-103): false
without touching anything when the local file is missing; otherwise it
unconditionally transfers the file — there is no check of the remote
staging path before uploading.  Returns (result, new state, transfers
performed). -/
def upload_file (ex : String → Bool) (st : RState) (localPath remotePath : String) :
    Bool × RState × List String :=
  if ex localPath then (true, putRemote st remotePath localPath, [remotePath])
  else (false, st, [])

/-- The `bundles_to_upload` list of `_stage_rke2_bundles`
(bundle_manager.py lines 45-50). -/
def bundlesToUpload : List (String × String) :=
  [("airgap_bundle_path", "rke2-airgap-bundle.tar.gz"),
   ("images_bundle_path", "rke2-images.tar.gz"),
   ("rpm_bundle_path", "rke2-rpms.tar.gz"),
   ("install_script_path", "install.sh")]

/-- The loop of `_stage_rke2_bundles` (bundle_manager.py lines 52-59):
keys absent from the rke2 config are skipped; the first failing upload
aborts with false. -/
def stageLoop (ex : String → Bool) (rke2Path : String → Option String)
    (stagingPath : String) :
    List (String × String) → RState → Bool × RState × List String
  | [], st => (true, st, [])
  | (key, filename) :: rest, st =>
    match rke2Path key with
    | none => stageLoop ex rke2Path stagingPath rest st
    | some localPath =>
      let r := upload_file ex st localPath (stagingPath ++ "/" ++ filename)
      if r.1 then
        let r2 := stageLoop ex rke2Path stagingPath rest r.2.1
        (r2.1, r2.2.1, r.2.2 ++ r2.2.2)
      else (false, r.2.1, r.2.2)

/-- `BundleManager._stage_rke2_bundles` (bundle_manager.py lines 41-61). -/
def stage_rke2_bundles (ex : String → Bool) (rke2Path : String → Option String)
    (stagingPath : String) (st : RState) : Bool × RState × List String :=
  stageLoop ex rke2Path stagingPath bundlesToUpload st

/-- `BundleManager.stage_bundles_to_node` for the rke2 distribution
(bundle_manager.py lines 14-39): the staging directories are created first
(`mkdirOk` abstracts the `run_ssh_command` result), then the rke2 bundles
are staged. -/
def stage_bundles_to_node (ex : String → Bool) (rke2Path : String → Option String)
    (stagingPath : String) (mkdirOk : Bool) (st : RState) :
    Bool × RState × List String :=
  if mkdirOk then stage_rke2_bundles ex rke2Path stagingPath st
  else (false, st, [])

/-- The (remote path, local path) assignments a staging run performs, in
order, for the configured keys. -/
def stageAssigns (rke2Path : String → Option String) (stagingPath : String)
    (ps : List (String × String)) : List (String × String) :=
  ps.filterMap (fun kf =>
    (rke2Path kf.1).map (fun lp => (stagingPath ++ "/" ++ kf.2, lp)))

/-- Apply a sequence of remote-path assignments in order. -/
def applyAssigns (st : RState) : List (String × String) → RState
  | [] => st
  | (rp, lp) :: rest => applyAssigns (putRemote st rp lp) rest

/-- The last value assigned to a remote path by a sequence of assignments. -/
def assignLast (q : String) : List (String × String) → Option String
  | [] => none
  | (rp, lp) :: rest =>
    match assignLast q rest with
    | some v => some v
    | none => if q = rp then some lp else none

/-! ### uninstall_cluster (src/uninstall/uninstall_cluster.py) -/

/-- Observable events of the uninstall sweep. -/
inductive UEvent where
  /-- `uninstall_from_node` was entered for this node (the per-node
  `log_message` in `uninstall_cluster`, lines 10 and 15). -/
  | visit (hostname : String) (isServer : Bool)
  /-- the distribution handler's uninstall returned false (line 32-33). -/
  | uninstallFail (hostname : String)
  /-- the per-node success log (line 36). -/
  | success (hostname : String)
  /-- an exception (e.g. the SSH connection failed) was caught (line 38-41). -/
  | nodeError (hostname : String)
  deriving DecidableEq, Repr

/-- `uninstall_from_node` (uninstall_cluster.py lines 18-41): every
exception is caught and only logged, and a failing handler uninstall is
only logged — the function never aborts the sweep.  `connOk` abstracts
whether the SSH connection succeeds, `uniOk` whether the handler's
uninstall returns truthy. -/
def uninstall_from_node (connOk uniOk : Node → Bool) (n : Node) : List UEvent :=
  if connOk n then
    (if uniOk n then [] else [UEvent.uninstallFail n.hostname]) ++
      [UEvent.success n.hostname]
  else [UEvent.nodeError n.hostname]

/-- `uninstall_cluster` (uninstall_cluster.py lines 5-16): all agents in
list order, then the servers in reversed list order. -/
def uninstall_cluster (connOk uniOk : Node → Bool) (inv : Inventory) : List UEvent :=
  inv.agents.flatMap
    (fun n => UEvent.visit n.hostname false :: uninstall_from_node connOk uniOk n) ++
  inv.servers.reverse.flatMap
    (fun n => UEvent.visit n.hostname true :: uninstall_from_node connOk uniOk n)

/-- The node-visit events of an uninstall sweep, in order. -/
def visits (t : List UEvent) : List (String × Bool) :=
  t.filterMap (fun e =>
    match e with
    | UEvent.visit h s => some (h, s)
    | _ => none)

/-! ### Concrete fixtures for counterexamples and witnesses -/

/-- A first server fixture. -/
def nodeS1 : Node := { hostname := "server-1", ip := "10.0.0.1" }

/-- A second (joining) server fixture. -/
def nodeS2 : Node := { hostname := "server-2", ip := "10.0.0.2" }

/-- An agent fixture. -/
def nodeA1 : Node := { hostname := "agent-1", ip := "10.0.0.11" }

/-- Another agent fixture. -/
def nodeA2 : Node := { hostname := "agent-2", ip := "10.0.0.12" }

/-- One server, two agents. -/
def invTwoAgents : Inventory := { servers := [nodeS1], agents := [nodeA1, nodeA2] }

/-- Two servers, one agent. -/
def invTwoServers : Inventory := { servers := [nodeS1, nodeS2], agents := [nodeA1] }

/-- Two servers, two agents. -/
def invFull : Inventory := { servers := [nodeS1, nodeS2], agents := [nodeA1, nodeA2] }

/-- One server, one agent. -/
def invOneOne : Inventory := { servers := [nodeS1], agents := [nodeA1] }

/-- Every remote step succeeds. -/
def alwaysOk : Node → Bool := fun _ => true

/-- Setup results where only agent-1 fails. -/
def okExceptAgent1 : Node → Bool := fun n => !(n.hostname == "agent-1")

/-- Setup results where only server-2 fails. -/
def okExceptServer2 : Node → Bool := fun n => !(n.hostname == "server-2")

/-- Distinct token file contents on the two servers. -/
def remoteTokensDistinct : Node → Option String :=
  fun n => if n.hostname == "server-1" then some "token-one" else some "token-two"

/-- The token file read comes back empty on every server. -/
def remoteTokenEmpty : Node → Option String := fun _ => some ""

/-- A `setup_node` oracle with every step succeeding. -/
def envAllGood : SetupEnv :=
  { bundleExists := true, connectRaises := false,
    uploadVerified := true, laterRaises := false }

/-- A cluster config with a static token and no optional fields. -/
def staticCluster : ClusterCfg :=
  { token := "static-token", domain := none, fields := fun _ => none }

/-- A validator node fixture with all fields present. -/
def vNode1 : VNode :=
  { hostname := "server-1", ip := some "10.0.0.1",
    user := some "admin", sshKey := some "/keys/id_ed25519" }

/-- A validator config whose rke2 section names two bundle paths. -/
def vcfgTwoBundles : VConfig :=
  { dist := "rke2",
    rke2Path := fun k =>
      if k == "airgap_bundle_path" then some "/bundles/rke2-airgap.tar.gz"
      else if k == "images_bundle_path" then some "/bundles/rke2-images.tar.gz"
      else none,
    k3sPath := fun _ => none, packageBundles := [],
    airgapEnabled := true, localRegistry := some "registry.local:5000",
    bundleStagingExists := true, servers := [vNode1], agents := [] }

/-- Local existence oracle under which only the SSH key exists (both bundle
paths of `vcfgTwoBundles` are missing). -/
def exOnlySshKey : String → Bool := fun p => p == "/keys/id_ed25519"

/-- An rke2 config naming all four stageable bundles. -/
def rke2AllBundles : String → Option String := fun k =>
  if k == "airgap_bundle_path" then some "/b/airgap.tar.gz"
  else if k == "images_bundle_path" then some "/b/images.tar.gz"
  else if k == "rpm_bundle_path" then some "/b/rpms.tar.gz"
  else if k == "install_script_path" then some "/b/install.sh"
  else none

/-- Every local file exists. -/
def allExists : String → Bool := fun _ => true

/-- The empty remote staging state. -/
def emptyRState : RState := fun _ => none

/-- The remote state after one successful staging run: the staging path
already contains every required artifact. -/
def stagedOnce : RState :=
  (stage_bundles_to_node allExists rke2AllBundles "/tmp/k8s-bundles" true emptyRState).2.1

end RKE2

namespace RKE2

/-! ### Helper lemmas about the deploy trace -/

theorem agentAttempts_append (a b : List DEvent) :
    agentAttempts (a ++ b) = agentAttempts a ++ agentAttempts b :=
  List.filterMap_append ..

theorem serverAttempts_append (a b : List DEvent) :
    serverAttempts (a ++ b) = serverAttempts a ++ serverAttempts b :=
  List.filterMap_append ..

theorem errorLogs_append (a b : List DEvent) :
    errorLogs (a ++ b) = errorLogs a ++ errorLogs b :=
  List.filterMap_append ..

theorem firstFlagged_append (a b : List DEvent) :
    firstFlagged (a ++ b) = firstFlagged a ++ firstFlagged b :=
  List.filterMap_append ..

theorem serverPhase_completed (ok : Node → Bool) :
    ∀ (ns : List Node) (i : Nat), (serverPhase ok ns i).2 = ns.all ok := by
  intro ns
  induction ns with
  | nil => intro i; rfl
  | cons n rest ih =>
    intro i
    cases h : ok n
    · simp [serverPhase, h]
    · simp [serverPhase, h, ih (i + 1)]

theorem serverPhase_hostnames (ok : Node → Bool) :
    ∀ (ns : List Node) (i : Nat),
      (serverAttempts (serverPhase ok ns i).1).map Prod.fst
        = (ns.take ((ns.takeWhile ok).length + 1)).map Node.hostname := by
  intro ns
  induction ns with
  | nil => intro i; rfl
  | cons n rest ih =>
    intro i
    cases h : ok n
    · simp [serverPhase, h, serverAttempts, List.takeWhile_cons]
    · simp [serverPhase, h, serverAttempts, List.takeWhile_cons,
        List.filterMap_cons] at ih ⊢
      exact ih (i + 1)

theorem serverPhase_agentAttempts (ok : Node → Bool) :
    ∀ (ns : List Node) (i : Nat), agentAttempts (serverPhase ok ns i).1 = [] := by
  intro ns
  induction ns with
  | nil => intro i; rfl
  | cons n rest ih =>
    intro i
    cases h : ok n
    · simp [serverPhase, h, agentAttempts]
    · simp [serverPhase, h, agentAttempts, List.filterMap_cons] at ih ⊢
      exact ih (i + 1)

theorem serverPhase_firstFlagged_pos (ok : Node → Bool) :
    ∀ (ns : List Node) (i : Nat), i ≠ 0 → firstFlagged (serverPhase ok ns i).1 = [] := by
  intro ns
  induction ns with
  | nil => intro i _; rfl
  | cons n rest ih =>
    intro i hi
    have hb : (i == 0) = false := by simpa using hi
    cases h : ok n
    · simp [serverPhase, h, firstFlagged, hb]
    · simp [serverPhase, h, firstFlagged, hb, List.filterMap_cons] at ih ⊢
      exact ih (i + 1) (Nat.succ_ne_zero i)

theorem serverPhase_firstFlagged_zero (ok : Node → Bool) (ns : List Node) :
    firstFlagged (serverPhase ok ns 0).1 = (ns.take 1).map Node.hostname := by
  cases ns with
  | nil => rfl
  | cons n rest =>
    have hpos := serverPhase_firstFlagged_pos ok rest 1 (Nat.succ_ne_zero 0)
    cases h : ok n
    · simp [serverPhase, h, firstFlagged]
    · simp [firstFlagged, List.filterMap_cons] at hpos ⊢
      simp [serverPhase, h, List.filterMap_cons]
      exact hpos

theorem serverPhase_errorLogs_ok (ok : Node → Bool) :
    ∀ (ns : List Node) (i : Nat), ns.all ok = true →
      errorLogs (serverPhase ok ns i).1 = [] := by
  intro ns
  induction ns with
  | nil => intro i _; rfl
  | cons n rest ih =>
    intro i hall
    rw [List.all_cons, Bool.and_eq_true] at hall
    simp [serverPhase, hall.1, errorLogs, List.filterMap_cons] at ih ⊢
    exact ih (i + 1) (by simpa using hall.2)

theorem agentPhase_completed (ok gpuOk : Node → Bool) :
    ∀ (ns : List Node), (agentPhase ok gpuOk ns).2 = ns.all ok := by
  intro ns
  induction ns with
  | nil => rfl
  | cons n rest ih =>
    cases h : ok n
    · simp [agentPhase, h]
    · simp [agentPhase, h, ih]

theorem agentPhase_hostnames (ok gpuOk : Node → Bool) :
    ∀ (ns : List Node),
      agentAttempts (agentPhase ok gpuOk ns).1
        = (ns.take ((ns.takeWhile ok).length + 1)).map Node.hostname := by
  intro ns
  induction ns with
  | nil => rfl
  | cons n rest ih =>
    cases h : ok n
    · simp [agentPhase, h, agentAttempts, List.takeWhile_cons]
    · cases hg : n.gpuEnabled <;> cases hgo : gpuOk n <;>
        simp [agentPhase, h, hg, hgo, agentAttempts, List.takeWhile_cons,
          List.filterMap_cons, List.filterMap_append] at ih ⊢ <;>
        exact ih

theorem agentPhase_serverAttempts (ok gpuOk : Node → Bool) :
    ∀ (ns : List Node), serverAttempts (agentPhase ok gpuOk ns).1 = [] := by
  intro ns
  induction ns with
  | nil => rfl
  | cons n rest ih =>
    cases h : ok n
    · simp [agentPhase, h, serverAttempts]
    · cases hg : n.gpuEnabled <;> cases hgo : gpuOk n <;>
        simp [agentPhase, h, hg, hgo, serverAttempts,
          List.filterMap_cons, List.filterMap_append] at ih ⊢ <;>
        exact ih

theorem agentPhase_firstFlagged (ok gpuOk : Node → Bool) :
    ∀ (ns : List Node), firstFlagged (agentPhase ok gpuOk ns).1 = [] := by
  intro ns
  induction ns with
  | nil => rfl
  | cons n rest ih =>
    cases h : ok n
    · simp [agentPhase, h, firstFlagged]
    · cases hg : n.gpuEnabled <;> cases hgo : gpuOk n <;>
        simp [agentPhase, h, hg, hgo, firstFlagged,
          List.filterMap_cons, List.filterMap_append] at ih ⊢ <;>
        exact ih

theorem agentPhase_errorLogs (ok gpuOk : Node → Bool) :
    ∀ (ns : List Node),
      errorLogs (agentPhase ok gpuOk ns).1
        = ((ns.drop (ns.takeWhile ok).length).head?.map
            (fun n => "Failed to setup agent " ++ n.hostname)).toList := by
  intro ns
  induction ns with
  | nil => rfl
  | cons n rest ih =>
    cases h : ok n
    · simp [agentPhase, h, errorLogs, List.takeWhile_cons]
    · cases hg : n.gpuEnabled <;> cases hgo : gpuOk n <;>
        simp [agentPhase, h, hg, hgo, errorLogs, List.takeWhile_cons,
          List.filterMap_cons, List.filterMap_append] at ih ⊢ <;>
        exact ih

theorem healthPhase_attempts (healthOk : Node → Bool) :
    ∀ (ns : List Node),
      agentAttempts (healthPhase healthOk ns) = [] ∧
      serverAttempts (healthPhase healthOk ns) = [] ∧
      errorLogs (healthPhase healthOk ns) = [] ∧
      firstFlagged (healthPhase healthOk ns) = [] := by
  intro ns
  induction ns with
  | nil => exact ⟨rfl, rfl, rfl, rfl⟩
  | cons n rest ih =>
    cases h : healthOk n <;>
      simpa [healthPhase, h, agentAttempts, serverAttempts, errorLogs,
        firstFlagged, List.filterMap_cons] using ih

theorem deployRun_server_fail (inv : Inventory) (ok gpuOk healthOk : Node → Bool)
    (hall : inv.servers.all ok = false) :
    deployRun inv false ok gpuOk healthOk = (serverPhase ok inv.servers 0).1 := by
  simp [deployRun, serverPhase_completed, hall]

theorem deployRun_servers_ok (inv : Inventory) (ok gpuOk healthOk : Node → Bool)
    (hall : inv.servers.all ok = true) :
    deployRun inv false ok gpuOk healthOk
      = (serverPhase ok inv.servers 0).1 ++ (agentPhase ok gpuOk inv.agents).1
        ++ (if (agentPhase ok gpuOk inv.agents).2 then
              healthPhase healthOk inv.servers else []) := by
  cases ha : (agentPhase ok gpuOk inv.agents).2 <;>
    simp [deployRun, serverPhase_completed, hall, ha]

/-! ### Claim theorems, in claim order -/

/-- Claim C3: if provisioning of a server fails, the whole run aborts: the
servers attempted are exactly those through the first failure (nothing on
`servers[i+1..]`), zero agents are attempted, and the only node ever
provisioned with `is_first_server` true is `servers[0]` — a failure at
index 0 never promotes index 1 to first. -/
theorem server_failure_aborts_whole_run (inv : Inventory)
    (ok gpuOk healthOk : Node → Bool)
    (hfail : inv.servers.takeWhile ok ≠ inv.servers) :
    agentAttempts (deployRun inv false ok gpuOk healthOk) = [] ∧
    (serverAttempts (deployRun inv false ok gpuOk healthOk)).map Prod.fst
      = (inv.servers.take ((inv.servers.takeWhile ok).length + 1)).map Node.hostname ∧
    firstFlagged (deployRun inv false ok gpuOk healthOk)
      = (inv.servers.take 1).map Node.hostname := by
  have hall : inv.servers.all ok = false := by
    cases hb : inv.servers.all ok
    · rfl
    · exact absurd (List.takeWhile_eq_self_iff.mpr
        (by simpa [List.all_eq_true] using hb)) hfail
  rw [deployRun_server_fail inv ok gpuOk healthOk hall]
  exact ⟨serverPhase_agentAttempts ok inv.servers 0,
         serverPhase_hostnames ok inv.servers 0,
         serverPhase_firstFlagged_zero ok inv.servers⟩

/-- Witness for C3: with `server-2` failing in a two-server two-agent
inventory, only `server-1` and `server-2` are attempted, no agent is
attempted, and only `server-1` is flagged first. -/
theorem server_failure_aborts_whole_run_witness :
    invFull.servers.takeWhile okExceptServer2 ≠ invFull.servers ∧
    (agentAttempts (deployRun invFull false okExceptServer2 alwaysOk alwaysOk) = [] ∧
     (serverAttempts (deployRun invFull false okExceptServer2 alwaysOk alwaysOk)).map Prod.fst
       = (invFull.servers.take ((invFull.servers.takeWhile okExceptServer2).length + 1)).map
           Node.hostname ∧
     firstFlagged (deployRun invFull false okExceptServer2 alwaysOk alwaysOk)
       = (invFull.servers.take 1).map Node.hostname) :=
  ⟨by decide,
   server_failure_aborts_whole_run invFull okExceptServer2 alwaysOk alwaysOk (by decide)⟩

/-- Counterexample for C4: with servers=[server-1] succeeding and
agents=[agent-1 (fails), agent-2], the deploy loop returns after agent-1's
failure — agent-2 is never attempted, so it is false that every agent in
the list is attempted regardless of earlier agent failures. -/
theorem agent_failure_stops_remaining_agents :
    agentAttempts (deployRun invTwoAgents false okExceptAgent1 alwaysOk alwaysOk)
      = ["agent-1"] ∧
    DEvent.provision "agent-2" false false
      ∉ deployRun invTwoAgents false okExceptAgent1 alwaysOk alwaysOk := by
  decide

/-- Claim C4 as amended: a failure provisioning one agent aborts the run —
agents are attempted in list order only up to and including the first
failing agent, agents after it are never attempted, and the only failure
report is the `log_error` for that first failing agent (there is no
aggregate end-of-run report of all failed agents). -/
theorem agent_failure_aborts_run (inv : Inventory) (ok gpuOk healthOk : Node → Bool)
    (hsrv : inv.servers.all ok = true) :
    agentAttempts (deployRun inv false ok gpuOk healthOk)
      = (inv.agents.take ((inv.agents.takeWhile ok).length + 1)).map Node.hostname ∧
    errorLogs (deployRun inv false ok gpuOk healthOk)
      = ((inv.agents.drop (inv.agents.takeWhile ok).length).head?.map
          (fun n => "Failed to setup agent " ++ n.hostname)).toList := by
  rw [deployRun_servers_ok inv ok gpuOk healthOk hsrv]
  constructor
  · rw [agentAttempts_append, agentAttempts_append,
      serverPhase_agentAttempts ok inv.servers 0, agentPhase_hostnames]
    cases ha : (agentPhase ok gpuOk inv.agents).2
    · simp [agentAttempts]
    · simp [(healthPhase_attempts healthOk inv.servers).1]
  · rw [errorLogs_append, errorLogs_append,
      serverPhase_errorLogs_ok ok inv.servers 0 hsrv, agentPhase_errorLogs]
    cases ha : (agentPhase ok gpuOk inv.agents).2
    · simp [errorLogs]
    · simp [(healthPhase_attempts healthOk inv.servers).2.2.1]

/-- Witness for the amended C4: with agent-1 failing, exactly agent-1 is
attempted and exactly agent-1's failure is error-logged. -/
theorem agent_failure_aborts_run_witness :
    invTwoAgents.servers.all okExceptAgent1 = true ∧
    (agentAttempts (deployRun invTwoAgents false okExceptAgent1 alwaysOk alwaysOk)
       = (invTwoAgents.agents.take
           ((invTwoAgents.agents.takeWhile okExceptAgent1).length + 1)).map Node.hostname ∧
     errorLogs (deployRun invTwoAgents false okExceptAgent1 alwaysOk alwaysOk)
       = ((invTwoAgents.agents.drop
            (invTwoAgents.agents.takeWhile okExceptAgent1).length).head?.map
           (fun n => "Failed to setup agent " ++ n.hostname)).toList) :=
  ⟨by decide,
   agent_failure_aborts_run invTwoAgents okExceptAgent1 alwaysOk alwaysOk (by decide)⟩

/-- Claim C8: a deploy run with the dry-run flag performs zero remote calls
(its whole trace is the plan display, produced before validation and before
any SSH connection) and the plan's node counts are exactly `len(servers)`
and `len(agents)`. -/
theorem dry_run_touches_nothing (inv : Inventory) (ok gpuOk healthOk : Node → Bool) :
    deployRun inv true ok gpuOk healthOk
      = [DEvent.planShown inv.servers.length inv.agents.length] ∧
    remoteEvents (deployRun inv true ok gpuOk healthOk) = [] := by
  refine ⟨rfl, ?_⟩
  simp [deployRun, remoteEvents, List.filter, isRemote]

/-- Claim C10: `setup_node` never returns a truthy value — `False` on its
early-failure paths (missing bundle, unverified upload), `None` when an
exception is caught, and `None` on a fully successful provisioning — so
the `deploy` caller, which branches on the truthiness of the result,
always takes its failure branch: with nonempty servers the run stops after
the very first server and never reaches the agents. -/
theorem setup_node_never_truthy :
    (∀ e : SetupEnv, truthy (setup_node e) = false) ∧
    setup_node envAllGood = PyRet.pyNone ∧
    (∀ c u l, setup_node ⟨false, c, u, l⟩ = PyRet.pyFalse) ∧
    (∀ (inv : Inventory) (envOf : Node → SetupEnv) (gpuOk healthOk : Node → Bool),
      inv.servers ≠ [] →
        (serverAttempts (deployRun inv false
            (fun n => truthy (setup_node (envOf n))) gpuOk healthOk)).map Prod.fst
          = (inv.servers.take 1).map Node.hostname ∧
        agentAttempts (deployRun inv false
            (fun n => truthy (setup_node (envOf n))) gpuOk healthOk) = []) := by
  refine ⟨?_, rfl, ?_, ?_⟩
  · intro e
    obtain ⟨b, c, u, l⟩ := e
    cases b <;> cases c <;> cases u <;> cases l <;> rfl
  · intro c u l
    rfl
  · intro inv envOf gpuOk healthOk hne
    have hok : ∀ n, truthy (setup_node (envOf n)) = false := by
      intro n
      obtain ⟨b, c, u, l⟩ := envOf n
      cases b <;> cases c <;> cases u <;> cases l <;> rfl
    have hall : inv.servers.all (fun n => truthy (setup_node (envOf n))) = false := by
      cases hs : inv.servers with
      | nil => exact absurd hs hne
      | cons n rest => simp [hok]
    rw [deployRun_server_fail inv _ gpuOk healthOk hall]
    constructor
    · rw [serverPhase_hostnames]
      have htw : inv.servers.takeWhile (fun n => truthy (setup_node (envOf n))) = [] := by
        cases hs : inv.servers with
        | nil => rfl
        | cons n rest => simp [List.takeWhile_cons, hok]
      simp [htw]
    · exact serverPhase_agentAttempts _ inv.servers 0

/-! ### Helper lemmas about the systemd/token trace -/

theorem tokenWrites_append (a b : List SysEvent) :
    tokenWrites (a ++ b) = tokenWrites a ++ tokenWrites b :=
  List.filterMap_append ..

theorem tokenReads_append (a b : List SysEvent) :
    tokenReads (a ++ b) = tokenReads a ++ tokenReads b :=
  List.filterMap_append ..

theorem joinConfigWrites_append (a b : List SysEvent) :
    joinConfigWrites (a ++ b) = joinConfigWrites a ++ joinConfigWrites b :=
  List.filterMap_append ..

theorem tokenWrites_runCmds (h : String) :
    ∀ cs : List String, tokenWrites (cs.map (SysEvent.runCmd h)) = [] := by
  intro cs
  simp [tokenWrites]

theorem tokenReads_runCmds (h : String) :
    ∀ cs : List String, tokenReads (cs.map (SysEvent.runCmd h)) = [] := by
  intro cs
  simp [tokenReads]

theorem joinConfigWrites_runCmds (h : String) :
    ∀ cs : List String, joinConfigWrites (cs.map (SysEvent.runCmd h)) = [] := by
  intro cs
  simp [joinConfigWrites]

theorem agent_connection_no_token_events (tok : Option String) (ip : String) (n : Node) :
    tokenWrites (agent_connection tok ip n) = [] ∧
    tokenReads (agent_connection tok ip n) = [] := by
  cases tok with
  | none => exact ⟨rfl, rfl⟩
  | some t =>
    cases h : t == "" <;>
      simp [agent_connection, h, tokenWrites, tokenReads, List.filterMap_cons]

theorem configure_systemd_agent_events (tok : Option String) (ip : String) (n : Node)
    (fw : Bool) (rt : Option String) :
    tokenWrites (configure_systemd tok false ip n fw rt).1 = [] ∧
    tokenReads (configure_systemd tok false ip n fw rt).1 = [(n.hostname, tok)] ∧
    (configure_systemd tok false ip n fw rt).2 = tok := by
  refine ⟨?_, ?_, rfl⟩
  · rw [show (configure_systemd tok false ip n fw rt).1
        = (SysEvent.tokenRead n.hostname tok :: agent_connection tok ip n)
          ++ (["cp rke2-agent.service /etc/systemd/system/",
               "systemctl daemon-reexec", "systemctl daemon-reload",
               "systemctl enable rke2-agent.service",
               "systemctl start rke2-agent.service",
               "systemctl status rke2-agent.service --no-pager"].map
                (SysEvent.runCmd n.hostname)) from rfl,
      tokenWrites_append, tokenWrites_runCmds]
    have h1 := (agent_connection_no_token_events tok ip n).1
    simp [tokenWrites, List.filterMap_cons] at h1 ⊢
    exact h1
  · rw [show (configure_systemd tok false ip n fw rt).1
        = (SysEvent.tokenRead n.hostname tok :: agent_connection tok ip n)
          ++ (["cp rke2-agent.service /etc/systemd/system/",
               "systemctl daemon-reexec", "systemctl daemon-reload",
               "systemctl enable rke2-agent.service",
               "systemctl start rke2-agent.service",
               "systemctl status rke2-agent.service --no-pager"].map
                (SysEvent.runCmd n.hostname)) from rfl,
      tokenReads_append, tokenReads_runCmds]
    have h2 := (agent_connection_no_token_events tok ip n).2
    simp [tokenReads, List.filterMap_cons] at h2 ⊢
    exact h2

theorem configure_systemd_server_events (tok : Option String) (ip : String) (n : Node)
    (fw : Bool) (rt : Option String) :
    tokenWrites (configure_systemd tok true ip n fw rt).1
      = [(n.hostname, get_server_token rt)] ∧
    tokenReads (configure_systemd tok true ip n fw rt).1 = [] ∧
    joinConfigWrites (configure_systemd tok true ip n fw rt).1 = [] ∧
    (configure_systemd tok true ip n fw rt).2 = get_server_token rt := by
  cases fw <;>
    refine ⟨?_, ?_, ?_, rfl⟩ <;>
    simp [configure_systemd, tokenWrites_append, tokenReads_append,
      joinConfigWrites_append, tokenWrites_runCmds, tokenReads_runCmds,
      joinConfigWrites_runCmds, tokenWrites, tokenReads, joinConfigWrites,
      List.filterMap_cons, List.filterMap_append, List.filterMap_map]

theorem tokenFlowServers_spec (ip : String) (fw : Bool) (rtOf : Node → Option String) :
    ∀ (ns : List Node) (tok : Option String),
      tokenWrites (tokenFlowServers ip fw rtOf ns tok).1
        = ns.map (fun n => (n.hostname, get_server_token (rtOf n))) ∧
      tokenReads (tokenFlowServers ip fw rtOf ns tok).1 = [] ∧
      (tokenFlowServers ip fw rtOf ns tok).2
        = ns.foldl (fun _ n => get_server_token (rtOf n)) tok := by
  intro ns
  induction ns with
  | nil => intro tok; exact ⟨rfl, rfl, rfl⟩
  | cons n rest ih =>
    intro tok
    refine ⟨?_, ?_, ?_⟩
    · rw [show (tokenFlowServers ip fw rtOf (n :: rest) tok).1
          = (configure_systemd tok true ip n fw (rtOf n)).1
            ++ (tokenFlowServers ip fw rtOf rest
                 (configure_systemd tok true ip n fw (rtOf n)).2).1 from rfl,
        tokenWrites_append,
        (configure_systemd_server_events tok ip n fw (rtOf n)).1,
        (ih _).1]
      rfl
    · rw [show (tokenFlowServers ip fw rtOf (n :: rest) tok).1
          = (configure_systemd tok true ip n fw (rtOf n)).1
            ++ (tokenFlowServers ip fw rtOf rest
                 (configure_systemd tok true ip n fw (rtOf n)).2).1 from rfl,
        tokenReads_append,
        (configure_systemd_server_events tok ip n fw (rtOf n)).2.1,
        (ih _).2.1]
      rfl
    · rw [show (tokenFlowServers ip fw rtOf (n :: rest) tok).2
          = (tokenFlowServers ip fw rtOf rest
              (configure_systemd tok true ip n fw (rtOf n)).2).2 from rfl,
        (ih _).2.2, (configure_systemd_server_events tok ip n fw (rtOf n)).2.2.2]
      rfl

theorem tokenFlowAgents_spec (ip : String) (fw : Bool) (rtOf : Node → Option String)
    (tok : Option String) :
    ∀ ns : List Node,
      tokenWrites (tokenFlowAgents ip fw rtOf tok ns) = [] ∧
      tokenReads (tokenFlowAgents ip fw rtOf tok ns)
        = ns.map (fun n => (n.hostname, tok)) := by
  intro ns
  induction ns with
  | nil => exact ⟨rfl, rfl⟩
  | cons n rest ih =>
    refine ⟨?_, ?_⟩
    · rw [show tokenFlowAgents ip fw rtOf tok (n :: rest)
          = (configure_systemd tok false ip n fw (rtOf n)).1
            ++ tokenFlowAgents ip fw rtOf tok rest from rfl,
        tokenWrites_append, (configure_systemd_agent_events tok ip n fw (rtOf n)).1, ih.1]
      rfl
    · rw [show tokenFlowAgents ip fw rtOf tok (n :: rest)
          = (configure_systemd tok false ip n fw (rtOf n)).1
            ++ tokenFlowAgents ip fw rtOf tok rest from rfl,
        tokenReads_append, (configure_systemd_agent_events tok ip n fw (rtOf n)).2.1, ih.2]
      rfl

/-- Witness for C10: a concrete nonempty inventory where every remote step
succeeds, yet only server-1 is attempted and no agent is. -/
theorem setup_node_never_truthy_witness :
    invTwoAgents.servers ≠ [] ∧
    ((serverAttempts (deployRun invTwoAgents false
        (fun n => truthy (setup_node ((fun _ => envAllGood) n))) alwaysOk alwaysOk)).map Prod.fst
      = (invTwoAgents.servers.take 1).map Node.hostname ∧
     agentAttempts (deployRun invTwoAgents false
        (fun n => truthy (setup_node ((fun _ => envAllGood) n))) alwaysOk alwaysOk) = []) :=
  ⟨by decide,
   setup_node_never_truthy.2.2.2 invTwoAgents (fun _ => envAllGood) alwaysOk alwaysOk
     (by decide)⟩

/-- Counterexample for C1: when the first server's token retrieval comes
back empty, the agent's systemd step still reads the (unpopulated) token,
its join-config generation emits only a warning and writes no join config,
and the agent's service is still enabled and started — the join attempt is
silently skipped rather than failing loudly and aborting the node. -/
theorem unset_token_join_skipped_counterexample :
    SysEvent.tokenRead "agent-1" none ∈ tokenFlowRun invOneOne false remoteTokenEmpty ∧
    SysEvent.warnLog "agent-1" "Warning: Server token is empty or not retrieved yet!"
      ∈ tokenFlowRun invOneOne false remoteTokenEmpty ∧
    joinConfigWrites (tokenFlowRun invOneOne false remoteTokenEmpty) = [] ∧
    SysEvent.runCmd "agent-1" "systemctl start rke2-agent.service"
      ∈ tokenFlowRun invOneOne false remoteTokenEmpty := by
  decide

/-- Claim C1 as amended: a joining agent reads the shared ClusterToken
whenever its systemd step runs, and every agent reads the value left after
all server steps; if that token is still unpopulated, the join-config
generation logs a warning and skips writing the join config without
aborting the node (the agent service is still enabled and started); when
it is populated, the join config with the first server's URL and the token
is written before the service starts. -/
theorem unset_token_join_warns_and_skips :
    (∀ (tok : Option String) (ip : String) (node : Node) (fw : Bool)
        (rt : Option String),
      tokenFalsy tok = true →
        (configure_systemd tok false ip node fw rt).1
          = [SysEvent.tokenRead node.hostname tok,
             SysEvent.warnLog node.hostname
               "Warning: Server token is empty or not retrieved yet!",
             SysEvent.runCmd node.hostname "cp rke2-agent.service /etc/systemd/system/",
             SysEvent.runCmd node.hostname "systemctl daemon-reexec",
             SysEvent.runCmd node.hostname "systemctl daemon-reload",
             SysEvent.runCmd node.hostname "systemctl enable rke2-agent.service",
             SysEvent.runCmd node.hostname "systemctl start rke2-agent.service",
             SysEvent.runCmd node.hostname "systemctl status rke2-agent.service --no-pager"]) ∧
    (∀ (t : String) (ip : String) (node : Node) (fw : Bool) (rt : Option String),
      (t == "") = false →
        (configure_systemd (some t) false ip node fw rt).1
          = [SysEvent.tokenRead node.hostname (some t),
             SysEvent.runCmd node.hostname "mkdir -p /etc/rancher/rke2",
             SysEvent.writeJoinConfig node.hostname ip t,
             SysEvent.runCmd node.hostname "cp /tmp/config.yaml /etc/rancher/rke2/config.yaml",
             SysEvent.runCmd node.hostname "cp rke2-agent.service /etc/systemd/system/",
             SysEvent.runCmd node.hostname "systemctl daemon-reexec",
             SysEvent.runCmd node.hostname "systemctl daemon-reload",
             SysEvent.runCmd node.hostname "systemctl enable rke2-agent.service",
             SysEvent.runCmd node.hostname "systemctl start rke2-agent.service",
             SysEvent.runCmd node.hostname "systemctl status rke2-agent.service --no-pager"]) ∧
    (∀ (inv : Inventory) (fw : Bool) (rtOf : Node → Option String),
      tokenReads (tokenFlowRun inv fw rtOf)
        = inv.agents.map (fun n => (n.hostname, finalServerToken inv fw rtOf))) := by
  refine ⟨?_, ?_, ?_⟩
  · intro tok ip node fw rt hf
    cases tok with
    | none => rfl
    | some t =>
      have ht : t = "" := by
        simpa [tokenFalsy] using hf
      subst ht
      rfl
  · intro t ip node fw rt ht
    show (SysEvent.tokenRead node.hostname (some t) :: agent_connection (some t) ip node)
        ++ _ = _
    rw [show agent_connection (some t) ip node
        = if t == "" then
            [SysEvent.warnLog node.hostname
              "Warning: Server token is empty or not retrieved yet!"]
          else
            [SysEvent.runCmd node.hostname "mkdir -p /etc/rancher/rke2",
             SysEvent.writeJoinConfig node.hostname ip t,
             SysEvent.runCmd node.hostname "cp /tmp/config.yaml /etc/rancher/rke2/config.yaml"]
        from rfl, ht]
    rfl
  · intro inv fw rtOf
    rw [show tokenFlowRun inv fw rtOf
        = (tokenFlowServers (match inv.servers with | [] => "" | s :: _ => s.ip)
            fw rtOf inv.servers none).1
          ++ tokenFlowAgents (match inv.servers with | [] => "" | s :: _ => s.ip)
               fw rtOf
               (tokenFlowServers (match inv.servers with | [] => "" | s :: _ => s.ip)
                 fw rtOf inv.servers none).2 inv.agents from rfl,
      tokenReads_append,
      (tokenFlowServers_spec _ fw rtOf inv.servers none).2.1,
      (tokenFlowAgents_spec _ fw rtOf _ inv.agents).2]
    rfl

/-- Witness for the amended C1: both token states exercised concretely — an
unset token leads to the warn-and-skip trace, a populated token leads to
the join-config-writing trace. -/
theorem unset_token_join_warns_and_skips_witness :
    tokenFalsy none = true ∧ (("tok-abc" : String) == "") = false ∧
    ((configure_systemd none false "10.0.0.1" nodeA1 false none).1
      = [SysEvent.tokenRead "agent-1" none,
         SysEvent.warnLog "agent-1" "Warning: Server token is empty or not retrieved yet!",
         SysEvent.runCmd "agent-1" "cp rke2-agent.service /etc/systemd/system/",
         SysEvent.runCmd "agent-1" "systemctl daemon-reexec",
         SysEvent.runCmd "agent-1" "systemctl daemon-reload",
         SysEvent.runCmd "agent-1" "systemctl enable rke2-agent.service",
         SysEvent.runCmd "agent-1" "systemctl start rke2-agent.service",
         SysEvent.runCmd "agent-1" "systemctl status rke2-agent.service --no-pager"]) ∧
    ((configure_systemd (some "tok-abc") false "10.0.0.1" nodeA1 false none).1
      = [SysEvent.tokenRead "agent-1" (some "tok-abc"),
         SysEvent.runCmd "agent-1" "mkdir -p /etc/rancher/rke2",
         SysEvent.writeJoinConfig "agent-1" "10.0.0.1" "tok-abc",
         SysEvent.runCmd "agent-1" "cp /tmp/config.yaml /etc/rancher/rke2/config.yaml",
         SysEvent.runCmd "agent-1" "cp rke2-agent.service /etc/systemd/system/",
         SysEvent.runCmd "agent-1" "systemctl daemon-reexec",
         SysEvent.runCmd "agent-1" "systemctl daemon-reload",
         SysEvent.runCmd "agent-1" "systemctl enable rke2-agent.service",
         SysEvent.runCmd "agent-1" "systemctl start rke2-agent.service",
         SysEvent.runCmd "agent-1" "systemctl status rke2-agent.service --no-pager"]) :=
  ⟨by decide, by decide,
   unset_token_join_warns_and_skips.1 none "10.0.0.1" nodeA1 false none (by decide),
   unset_token_join_warns_and_skips.2.1 "tok-abc" "10.0.0.1" nodeA1 false none (by decide)⟩

/-- Counterexample for C5: with two servers using dynamic tokens, the
shared token is written twice in one run (once after each server's service
configuration), not exactly once. -/
theorem token_written_twice_counterexample :
    (tokenWrites (tokenFlowRun invTwoServers true remoteTokensDistinct)).length = 2 ∧
    (tokenWrites (tokenFlowRun invTwoServers true remoteTokensDistinct)).length ≠ 1 := by
  decide

/-- Claim C5 as amended: the shared ClusterToken is rewritten once per
server — every server's systemd step ends by re-reading the remote token
file and overwriting the token, so a run with N servers performs exactly N
writes in server order — while agents never write it (they only read). -/
theorem token_rewritten_once_per_server (inv : Inventory) (fw : Bool)
    (rtOf : Node → Option String) :
    tokenWrites (tokenFlowRun inv fw rtOf)
      = inv.servers.map (fun n => (n.hostname, get_server_token (rtOf n))) := by
  rw [show tokenFlowRun inv fw rtOf
      = (tokenFlowServers (match inv.servers with | [] => "" | s :: _ => s.ip)
          fw rtOf inv.servers none).1
        ++ tokenFlowAgents (match inv.servers with | [] => "" | s :: _ => s.ip)
             fw rtOf
             (tokenFlowServers (match inv.servers with | [] => "" | s :: _ => s.ip)
               fw rtOf inv.servers none).2 inv.agents from rfl,
    tokenWrites_append,
    (tokenFlowServers_spec _ fw rtOf inv.servers none).1,
    (tokenFlowAgents_spec _ fw rtOf _ inv.agents).1]
  simp

/-! ### Helper lemmas about node configs, validation, staging, uninstall -/

theorem mem_optional_keys (c : ClusterCfg) (k : String)
    (h : k ∈ (optionalFields.filterMap
          (fun q => (c.fields q).map (fun v => (q, v)))).map Prod.fst) :
    k ∈ optionalFields := by
  rcases List.mem_map.mp h with ⟨pair, hpair, hfst⟩
  rcases List.mem_filterMap.mp hpair with ⟨q, hq, hsome⟩
  rcases Option.map_eq_some'.mp hsome with ⟨v, _, hpv⟩
  cases hpv
  cases hfst
  exact hq

theorem visits_append (a b : List UEvent) :
    visits (a ++ b) = visits a ++ visits b :=
  List.filterMap_append ..

theorem uninstall_from_node_no_visits (connOk uniOk : Node → Bool) (n : Node) :
    visits (uninstall_from_node connOk uniOk n) = [] := by
  cases h : connOk n <;> cases h2 : uniOk n <;>
    simp [uninstall_from_node, h, h2, visits, List.filterMap_cons]

theorem visits_sweep (connOk uniOk : Node → Bool) (b : Bool) :
    ∀ ns : List Node,
      visits (ns.flatMap
          (fun n => UEvent.visit n.hostname b :: uninstall_from_node connOk uniOk n))
        = ns.map (fun n => (n.hostname, b)) := by
  intro ns
  induction ns with
  | nil => rfl
  | cons n rest ih =>
    rw [show (n :: rest).flatMap
          (fun n => UEvent.visit n.hostname b :: uninstall_from_node connOk uniOk n)
        = (UEvent.visit n.hostname b :: uninstall_from_node connOk uniOk n)
          ++ rest.flatMap
              (fun n => UEvent.visit n.hostname b :: uninstall_from_node connOk uniOk n)
        from rfl,
      show visits ((UEvent.visit n.hostname b :: uninstall_from_node connOk uniOk n)
          ++ rest.flatMap
              (fun n => UEvent.visit n.hostname b :: uninstall_from_node connOk uniOk n))
        = (n.hostname, b) :: visits (uninstall_from_node connOk uniOk n
            ++ rest.flatMap
                (fun n => UEvent.visit n.hostname b :: uninstall_from_node connOk uniOk n))
        from rfl,
      visits_append, uninstall_from_node_no_visits, ih]
    rfl

theorem stageLoop_spec (ex : String → Bool) (rke2Path : String → Option String)
    (sp : String) :
    ∀ (ps : List (String × String)) (st : RState),
      (stageLoop ex rke2Path sp ps st).1
        = (stageAssigns rke2Path sp ps).all (fun a => ex a.2) ∧
      (stageLoop ex rke2Path sp ps st).2.2
        = ((stageAssigns rke2Path sp ps).takeWhile (fun a => ex a.2)).map Prod.fst ∧
      ((stageLoop ex rke2Path sp ps st).1 = true →
        (stageLoop ex rke2Path sp ps st).2.1
          = applyAssigns st (stageAssigns rke2Path sp ps)) := by
  intro ps
  induction ps with
  | nil => intro st; exact ⟨rfl, rfl, fun _ => rfl⟩
  | cons kf rest ih =>
    intro st
    obtain ⟨key, fn⟩ := kf
    cases hk : rke2Path key with
    | none =>
      have hassign : stageAssigns rke2Path sp ((key, fn) :: rest)
          = stageAssigns rke2Path sp rest := by
        simp [stageAssigns, List.filterMap_cons, hk]
      have hloop : stageLoop ex rke2Path sp ((key, fn) :: rest) st
          = stageLoop ex rke2Path sp rest st := by
        simp [stageLoop, hk]
      rw [hloop, hassign]
      exact ih st
    | some lp =>
      have hassign : stageAssigns rke2Path sp ((key, fn) :: rest)
          = (sp ++ "/" ++ fn, lp) :: stageAssigns rke2Path sp rest := by
        simp [stageAssigns, List.filterMap_cons, hk]
      cases hex : ex lp with
      | false =>
        have hloop : stageLoop ex rke2Path sp ((key, fn) :: rest) st = (false, st, []) := by
          simp [stageLoop, hk, upload_file, hex]
        rw [hloop, hassign]
        refine ⟨by simp [hex], by simp [List.takeWhile_cons, hex], ?_⟩
        intro h
        exact absurd h (by simp)
      | true =>
        have hloop : stageLoop ex rke2Path sp ((key, fn) :: rest) st
            = ((stageLoop ex rke2Path sp rest (putRemote st (sp ++ "/" ++ fn) lp)).1,
               (stageLoop ex rke2Path sp rest (putRemote st (sp ++ "/" ++ fn) lp)).2.1,
               (sp ++ "/" ++ fn)
                 :: (stageLoop ex rke2Path sp rest (putRemote st (sp ++ "/" ++ fn) lp)).2.2) := by
          simp [stageLoop, hk, upload_file, hex]
        obtain ⟨ih1, ih2, ih3⟩ := ih (putRemote st (sp ++ "/" ++ fn) lp)
        rw [hloop, hassign]
        refine ⟨by simp [hex, ih1], by simp [List.takeWhile_cons, hex, ih2], ?_⟩
        intro h
        rw [show applyAssigns st ((sp ++ "/" ++ fn, lp) :: stageAssigns rke2Path sp rest)
            = applyAssigns (putRemote st (sp ++ "/" ++ fn) lp) (stageAssigns rke2Path sp rest)
            from rfl]
        exact ih3 h

theorem applyAssigns_lookup :
    ∀ (as : List (String × String)) (st : RState) (q : String),
      applyAssigns st as q
        = match assignLast q as with
          | some v => some v
          | none => st q := by
  intro as
  induction as with
  | nil => intro st q; rfl
  | cons a rest ih =>
    intro st q
    obtain ⟨rp, lp⟩ := a
    rw [show applyAssigns st ((rp, lp) :: rest)
        = applyAssigns (putRemote st rp lp) rest from rfl, ih]
    rw [show assignLast q ((rp, lp) :: rest)
        = (match assignLast q rest with
           | some v => some v
           | none => if q = rp then some lp else none) from rfl]
    cases assignLast q rest with
    | some v => rfl
    | none =>
      by_cases hq : q = rp
      · simp [putRemote, hq]
      · simp [putRemote, hq]

theorem applyAssigns_idem (as : List (String × String)) (st : RState) :
    applyAssigns (applyAssigns st as) as = applyAssigns st as := by
  funext q
  rw [applyAssigns_lookup]
  cases h : assignLast q as with
  | some v => rw [applyAssigns_lookup, h]
  | none => rfl

/-- Claim C2 is a code bug: for every non-first server and every cluster
config, the rendered server config contains the static token but no join
URL whatsoever (no `server` key can ever appear) and no cluster-init flag,
while the first server does get `cluster-init` and agents (via
`agent_connection`) do get both the join URL and the token — so a joining
server has no join target, contradicting the evident intent. -/
theorem joining_server_config_lacks_join_url :
    (∀ (node : Node) (c : ClusterCfg),
      "server" ∉ configKeys (write_server_config_yaml node false c) ∧
      "cluster-init" ∉ configKeys (write_server_config_yaml node false c) ∧
      ("token", c.token) ∈ write_server_config_yaml node false c) ∧
    ("cluster-init", "true") ∈ write_server_config_yaml nodeS1 true staticCluster ∧
    configKeys (write_server_config_yaml nodeS2 false staticCluster)
      = ["token", "node-name", "tls-san"] ∧
    joinConfigWrites (agent_connection (some "join-token") "10.0.0.1" nodeA1)
      = [("agent-1", "10.0.0.1", "join-token")] := by
  refine ⟨?_, by decide, by decide, by decide⟩
  intro node c
  have hkeys : configKeys (write_server_config_yaml node false c)
      = "token" :: "node-name" :: "tls-san"
        :: (optionalFields.filterMap
            (fun q => (c.fields q).map (fun v => (q, v)))).map Prod.fst := rfl
  refine ⟨?_, ?_, List.mem_cons_self _ _⟩
  · intro hmem
    rw [hkeys] at hmem
    simp only [List.mem_cons] at hmem
    rcases hmem with h | h | h | h
    · exact absurd h (by decide)
    · exact absurd h (by decide)
    · exact absurd h (by decide)
    · exact absurd (mem_optional_keys c _ h) (by decide)
  · intro hmem
    rw [hkeys] at hmem
    simp only [List.mem_cons] at hmem
    rcases hmem with h | h | h | h
    · exact absurd h (by decide)
    · exact absurd h (by decide)
    · exact absurd h (by decide)
    · exact absurd (mem_optional_keys c _ h) (by decide)

/-- Claim C6: for every inventory and every outcome of the per-node
connection and uninstall steps, the uninstall sweep visits all agents (in
list order) before any server, visits the servers in strictly reversed
list order, and visits every node regardless of any per-node failure — no
failure aborts the sweep. -/
theorem uninstall_visits_agents_then_reversed_servers (inv : Inventory)
    (connOk uniOk : Node → Bool) :
    visits (uninstall_cluster connOk uniOk inv)
      = inv.agents.map (fun n => (n.hostname, false))
        ++ inv.servers.reverse.map (fun n => (n.hostname, true)) := by
  rw [show uninstall_cluster connOk uniOk inv
      = inv.agents.flatMap
          (fun n => UEvent.visit n.hostname false :: uninstall_from_node connOk uniOk n)
        ++ inv.servers.reverse.flatMap
            (fun n => UEvent.visit n.hostname true :: uninstall_from_node connOk uniOk n)
      from rfl,
    visits_append, visits_sweep, visits_sweep]

/-- Claim C7: `run_full_validation` returns false iff at least one
individual check fails; every check is executed (the results list always
has one entry per check: bundles, disk, registry, and one per node)
regardless of earlier failures; and every missing bundle path is logged —
with two missing artifacts both paths appear in the output. -/
theorem validation_reports_every_failure (c : VConfig) (ex : String → Bool) :
    (run_full_validation c ex = false ↔ false ∈ checkResults c ex) ∧
    (checkResults c ex).length = 3 + (c.servers.length + c.agents.length) ∧
    (∀ p, p ∈ missingBundles c ex → ("  - " ++ p) ∈ validationLogs c ex) := by
  refine ⟨?_, ?_, ?_⟩
  · constructor
    · intro h
      by_contra hmem
      have hall : ∀ b ∈ checkResults c ex, (fun b => b) b = true := by
        intro b hb
        cases b
        · exact absurd hb hmem
        · rfl
      rw [run_full_validation, List.all_eq_true.mpr hall] at h
      cases h
    · intro hmem
      cases hall : run_full_validation c ex
      · rfl
      · rw [run_full_validation] at hall
        have := List.all_eq_true.mp hall false hmem
        cases this
  · simp [checkResults]
    omega
  · intro p hp
    have hne : (missingBundles c ex).isEmpty = false := by
      cases hmb : missingBundles c ex with
      | nil => rw [hmb] at hp; cases hp
      | cons a l => rfl
    have hlogs : (validate_local_bundles c ex).2
        = "Missing required bundles:"
          :: (missingBundles c ex).map (fun q => "  - " ++ q) := by
      simp [validate_local_bundles, hne]
    rw [show validationLogs c ex
        = (validate_local_bundles c ex).2 ++ ((validate_disk_space c).2
            ++ ((validate_registry_access c).2
              ++ (c.servers ++ c.agents).flatMap (fun n => (validate_ssh_access ex n).2)))
        from by simp [validationLogs], hlogs]
    exact List.mem_append.mpr (Or.inl
      (List.mem_cons_of_mem _ (List.mem_map_of_mem _ hp)))

/-- Witness for C7: a config with two missing bundle artifacts — both file
paths appear in the validation output. -/
theorem validation_reports_every_failure_witness :
    ("/bundles/rke2-airgap.tar.gz" ∈ missingBundles vcfgTwoBundles exOnlySshKey ∧
     "/bundles/rke2-images.tar.gz" ∈ missingBundles vcfgTwoBundles exOnlySshKey) ∧
    ("  - /bundles/rke2-airgap.tar.gz" ∈ validationLogs vcfgTwoBundles exOnlySshKey ∧
     "  - /bundles/rke2-images.tar.gz" ∈ validationLogs vcfgTwoBundles exOnlySshKey) :=
  ⟨⟨by decide, by decide⟩,
   (validation_reports_every_failure vcfgTwoBundles exOnlySshKey).2.2 _ (by decide),
   (validation_reports_every_failure vcfgTwoBundles exOnlySshKey).2.2 _ (by decide)⟩

/-- Counterexample for C9: a remote staging state already holding every
required artifact, on which a re-stage call still performs all four
transfers — the uploads are not skipped. -/
theorem restage_performs_transfers_counterexample :
    (stagedOnce "/tmp/k8s-bundles/rke2-airgap-bundle.tar.gz" = some "/b/airgap.tar.gz" ∧
     stagedOnce "/tmp/k8s-bundles/rke2-images.tar.gz" = some "/b/images.tar.gz" ∧
     stagedOnce "/tmp/k8s-bundles/rke2-rpms.tar.gz" = some "/b/rpms.tar.gz" ∧
     stagedOnce "/tmp/k8s-bundles/install.sh" = some "/b/install.sh") ∧
    (stage_bundles_to_node allExists rke2AllBundles "/tmp/k8s-bundles" true stagedOnce).2.2
      = ["/tmp/k8s-bundles/rke2-airgap-bundle.tar.gz",
         "/tmp/k8s-bundles/rke2-images.tar.gz",
         "/tmp/k8s-bundles/rke2-rpms.tar.gz",
         "/tmp/k8s-bundles/install.sh"] ∧
    (stage_bundles_to_node allExists rke2AllBundles "/tmp/k8s-bundles" true stagedOnce).1
      = true := by
  decide

/-- Claim C9 as amended: re-staging does not skip the uploads — a second
staging run performs exactly the same transfers again — but it still
reports success and staging the same node twice in a row yields the same
remote state as staging once. -/
theorem restage_reuploads_but_state_idempotent (ex : String → Bool)
    (rke2Path : String → Option String) (sp : String) (mkdirOk : Bool) (st : RState)
    (h1 : (stage_bundles_to_node ex rke2Path sp mkdirOk st).1 = true) :
    stage_bundles_to_node ex rke2Path sp mkdirOk
        (stage_bundles_to_node ex rke2Path sp mkdirOk st).2.1
      = (true, (stage_bundles_to_node ex rke2Path sp mkdirOk st).2.1,
         (stage_bundles_to_node ex rke2Path sp mkdirOk st).2.2) := by
  cases mkdirOk with
  | false => exact absurd h1 (by simp [stage_bundles_to_node])
  | true =>
    show stageLoop ex rke2Path sp bundlesToUpload
        (stageLoop ex rke2Path sp bundlesToUpload st).2.1
      = (true, (stageLoop ex rke2Path sp bundlesToUpload st).2.1,
         (stageLoop ex rke2Path sp bundlesToUpload st).2.2)
    obtain ⟨hs1, hs2, hs3⟩ := stageLoop_spec ex rke2Path sp bundlesToUpload st
    obtain ⟨ht1, ht2, ht3⟩ := stageLoop_spec ex rke2Path sp bundlesToUpload
      ((stageLoop ex rke2Path sp bundlesToUpload st).2.1)
    have hok : (stageAssigns rke2Path sp bundlesToUpload).all (fun a => ex a.2) = true := by
      rw [← hs1]; exact h1
    have hfst : (stageLoop ex rke2Path sp bundlesToUpload
        ((stageLoop ex rke2Path sp bundlesToUpload st).2.1)).1 = true := by
      rw [ht1]; exact hok
    refine Prod.ext_iff.mpr ⟨hfst, Prod.ext_iff.mpr ⟨?_, ?_⟩⟩
    · rw [ht3 hfst, hs3 h1, applyAssigns_idem]
    · rw [ht2, hs2]

/-- Witness for the amended C9: staging the concrete full bundle config
from the empty remote state succeeds, and a second run reproduces the same
transfers and the same final remote state. -/
theorem restage_reuploads_but_state_idempotent_witness :
    (stage_bundles_to_node allExists rke2AllBundles "/tmp/k8s-bundles" true emptyRState).1
      = true ∧
    stage_bundles_to_node allExists rke2AllBundles "/tmp/k8s-bundles" true
        (stage_bundles_to_node allExists rke2AllBundles "/tmp/k8s-bundles" true
          emptyRState).2.1
      = (true,
         (stage_bundles_to_node allExists rke2AllBundles "/tmp/k8s-bundles" true
           emptyRState).2.1,
         (stage_bundles_to_node allExists rke2AllBundles "/tmp/k8s-bundles" true
           emptyRState).2.2) :=
  ⟨by decide,
   restage_reuploads_but_state_idempotent allExists rke2AllBundles "/tmp/k8s-bundles"
     true emptyRState (by decide)⟩

end RKE2
